import Mathlib

/-!
Shallow embedding of the two range-check gadgets of `src/range_check.rs` and
`src/range_lookup.rs` (halo2 circuits), together with proofs of the spec's
claims about them.

The halo2 collaborator interfaces (constraint-system builder, expressions,
layouter) are modelled as the spec describes them in §1/§9: an expression AST
with constants, selector queries and advice queries; an append-only registry
of named gates and lookup relations with counter-based allocation of
selectors and table columns; and region assignment as explicit lists of
(column, row, value) cells.  Machine integers (`usize`) are modelled as `ℕ`;
field elements as an arbitrary `Field F`, with the canonical injection
`i ↦ i·1_F` modelled as `Nat.cast`.  Fallible operations (`Result<_, Error>`,
`assert!`) are modelled with `Except` and `Option`.
-/

/-- Polynomial expression over the circuit's columns, mirroring
`halo2_proofs::plonk::Expression` as used by this code base: a constant
field element, a selector query (by allocation index), an advice-column
query at the current rotation (by column index), negation, sum and
product.  Rust's `a - b` on expressions is `Sum a (Negated b)`. -/
inductive Expression (F : Type) where
  | Constant : F → Expression F
  | Selector : ℕ → Expression F
  | Advice : ℕ → Expression F
  | Negated : Expression F → Expression F
  | Sum : Expression F → Expression F → Expression F
  | Product : Expression F → Expression F → Expression F
deriving DecidableEq

/-- Evaluate an expression given the row's selector values and advice values. -/
def Expression.eval {F : Type} [Field F] (sel adv : ℕ → F) : Expression F → F
  | .Constant c => c
  | .Selector s => sel s
  | .Advice a => adv a
  | .Negated e => - e.eval sel adv
  | .Sum a b => a.eval sel adv + b.eval sel adv
  | .Product a b => a.eval sel adv * b.eval sel adv

/-- The expression read as a univariate polynomial in the value (advice)
variable: every advice query becomes `X`, selector values are fixed by `sel`. -/
noncomputable def Expression.toPoly {F : Type} [Field F] (sel : ℕ → F) : Expression F → Polynomial F
  | .Constant c => Polynomial.C c
  | .Selector s => Polynomial.C (sel s)
  | .Advice _ => Polynomial.X
  | .Negated e => - e.toPoly sel
  | .Sum a b => a.toPoly sel + b.toPoly sel
  | .Product a b => a.toPoly sel * b.toPoly sel

/-- Total degree of an expression, as the constraint system measures it
(each selector or advice query has degree 1, products add degrees,
sums take the maximum). -/
def Expression.degree {F : Type} : Expression F → ℕ
  | .Constant _ => 0
  | .Selector _ => 1
  | .Advice _ => 1
  | .Negated e => e.degree
  | .Sum a b => max a.degree b.degree
  | .Product a b => a.degree + b.degree

/-- Errors surfaced by witness-time assignment, mirroring
`halo2_proofs::plonk::Error` at the granularity this code observes. -/
inductive Error where
  | Synthesis : Error
  | NotEnoughRowsAvailable : Error
deriving DecidableEq

/-- A cell handle returned by `region.assign_advice`:
column index, row index and the assigned value. -/
structure AssignedCell (F : Type) where
  col : ℕ
  row : ℕ
  val : F
deriving DecidableEq

/-- Wrapper marking a cell as range-checked; both source files declare an
identical tuple struct `RangeConstrained<F>(AssignedCell<Assigned<F>, F>)`. -/
structure RangeConstrained (F : Type) where
  cell : AssignedCell F
deriving DecidableEq

/-- The constraint-system builder, modelled (per spec §9) as an append-only
registry: allocated selectors (the flag records whether the selector is a
complex one, i.e. usable in lookups), a count of allocated lookup-table
columns, the registered named gate polynomials, and the registered lookup
relations (input expression, table column index). -/
structure ConstraintSystem (F : Type) where
  selectors : List Bool
  tableColumns : ℕ
  gates : List (String × String × Expression F)
  lookups : List (Expression F × ℕ)
deriving DecidableEq

/-- A fresh constraint system with nothing allocated or registered. -/
def ConstraintSystem.empty (F : Type) : ConstraintSystem F := ⟨[], 0, [], []⟩

/-- `cs.selector()`: allocate a simple selector, returning its index. -/
def ConstraintSystem.selector {F : Type} (cs : ConstraintSystem F) :
    ℕ × ConstraintSystem F :=
  (cs.selectors.length, ⟨cs.selectors ++ [false], cs.tableColumns, cs.gates, cs.lookups⟩)

/-- `cs.complex_selector()`: allocate a complex selector (usable in lookups). -/
def ConstraintSystem.complex_selector {F : Type} (cs : ConstraintSystem F) :
    ℕ × ConstraintSystem F :=
  (cs.selectors.length, ⟨cs.selectors ++ [true], cs.tableColumns, cs.gates, cs.lookups⟩)

/-- `cs.lookup_table_column()`: allocate a lookup table column, returning its index. -/
def ConstraintSystem.lookup_table_column {F : Type} (cs : ConstraintSystem F) :
    ℕ × ConstraintSystem F :=
  (cs.tableColumns, ⟨cs.selectors, cs.tableColumns + 1, cs.gates, cs.lookups⟩)

/-- `cs.create_gate(name, ...)`: append the given named constraint polynomials. -/
def ConstraintSystem.create_gate {F : Type} (cs : ConstraintSystem F)
    (gate : String) (constraints : List (String × Expression F)) : ConstraintSystem F :=
  ⟨cs.selectors, cs.tableColumns,
    cs.gates ++ constraints.map (fun c => (gate, c.1, c.2)), cs.lookups⟩

/-- `cs.lookup(...)`: append the given lookup relations. -/
def ConstraintSystem.lookup {F : Type} (cs : ConstraintSystem F)
    (rels : List (Expression F × ℕ)) : ConstraintSystem F :=
  ⟨cs.selectors, cs.tableColumns, cs.gates, cs.lookups ++ rels⟩

/-- `Constraints::with_selector(q, cs)`: gate each constraint polynomial by
multiplying the selector query into it. -/
def Constraints.with_selector {F : Type} (q : ℕ)
    (cs : List (String × Expression F)) : List (String × Expression F) :=
  cs.map (fun c => (c.1, Expression.Product (Expression.Selector q) c.2))

/-- The fold from the `range_check` closure of
`RangeCheckCircuitConfig::configure` (src/range_check.rs): starting from
`value`, multiply in the factor `(i - value)` for each `i` in `1..range`. -/
def range_check_body {F : Type} [Field F] (range : ℕ) (value : Expression F) :
    Expression F :=
  (List.range' 1 (range - 1)).foldl
    (fun expr i =>
      Expression.Product expr
        (Expression.Sum (Expression.Constant ((i : ℕ) : F)) (Expression.Negated value)))
    value

/-- The `range_check` closure itself: `assert!(range > 0)` then the fold.
The assertion failure (a Rust panic) is modelled as `none`. -/
def range_check {F : Type} [Field F] (range : ℕ) (value : Expression F) :
    Option (Expression F) :=
  if range > 0 then some (range_check_body range value) else none

/-- Configuration of the polynomial range-check gadget
(src/range_check.rs): the advice column holding the value and the selector. -/
structure RangeCheckCircuitConfig where
  value : ℕ
  q_enable : ℕ
deriving DecidableEq

/-- `RangeCheckCircuitConfig::configure`: allocate a selector, then register
the gate named "range" whose single constraint "range check" is the
selector-gated `range_check` polynomial over the advice column.  Fails
(returns `none`) exactly when the `assert!` inside `range_check` fires. -/
def RangeCheckCircuitConfig.configure {F : Type} [Field F] (RANGE_SIZE : ℕ)
    (cs : ConstraintSystem F) (value : ℕ) :
    Option (RangeCheckCircuitConfig × ConstraintSystem F) :=
  let alloc := ConstraintSystem.selector cs
  match range_check RANGE_SIZE (Expression.Advice value) with
  | none => none
  | some e =>
      some (⟨value, alloc.1⟩,
        ConstraintSystem.create_gate alloc.2 "range"
          (Constraints.with_selector alloc.1 [("range check", e)]))

/-- `RangeCheckCircuitConfig::assign`: enable the selector at offset 0, then
assign the value into the advice column at offset 0, wrapping the resulting
cell in `RangeConstrained`.  The two fallible collaborator operations
(`Selector::enable`, `Region::assign_advice`) are passed in as their
outcomes; the first error, if any, is returned unchanged. -/
def RangeCheckCircuitConfig.assign {F : Type}
    (_cfg : RangeCheckCircuitConfig)
    (enableRes : Except Error Unit)
    (adviceRes : Except Error (AssignedCell F)) :
    Except Error (RangeConstrained F) :=
  match enableRes with
  | .error e => .error e
  | .ok _ => adviceRes.map RangeConstrained.mk

/-- Configuration of the range table (src/range_lookup.rs): the table column. -/
structure RangeTableConfig where
  value : ℕ
deriving DecidableEq

/-- `RangeTableConfig::configure`: allocate one lookup table column. -/
def RangeTableConfig.configure {F : Type} (cs : ConstraintSystem F) :
    RangeTableConfig × ConstraintSystem F :=
  let alloc := ConstraintSystem.lookup_table_column cs
  (⟨alloc.1⟩, alloc.2)

/-- The cell assignments performed by the loop in `RangeTableConfig::load`:
for each `i` in `0..RANGE`, assign the canonical injection of `i` into the
table column at row `i`, in order.  Each entry is (column, row, value). -/
def tableAssignments (F : Type) [Field F] (RANGE : ℕ) (col : ℕ) :
    List (ℕ × ℕ × F) :=
  (List.range RANGE).map (fun i => (col, i, ((i : ℕ) : F)))

/-- The values present in the table column after `load`. -/
def tableValues (F : Type) [Field F] (RANGE : ℕ) : List F :=
  (tableAssignments F RANGE 0).map (fun a => a.2.2)

/-- `RangeTableConfig::load`: perform the table assignments inside one
table region and return `Ok`.  The model layouter has unbounded rows, so
each `assign_cell` of the loop succeeds. -/
def RangeTableConfig.load {F : Type} [Field F] (tc : RangeTableConfig)
    (RANGE : ℕ) : Except Error (List (ℕ × ℕ × F)) :=
  Except.ok (tableAssignments F RANGE tc.value)

/-- Configuration of the lookup range-check gadget (src/range_lookup.rs). -/
structure RangeCheckLookupConfig where
  values : ℕ
  q_enable : ℕ
  table : RangeTableConfig
deriving DecidableEq

/-- The lookup input expression registered by
`RangeCheckLookupConfig::configure`: `q_lookup * v`. -/
def lookup_input {F : Type} (q values : ℕ) : Expression F :=
  Expression.Product (Expression.Selector q) (Expression.Advice values)

/-- `RangeCheckLookupConfig::configure`: allocate a complex selector,
configure an owned range table, and register the single lookup relation
`(q_lookup * v, table.value)`.  No range check is performed here. -/
def RangeCheckLookupConfig.configure {F : Type} (RANGE : ℕ)
    (cs : ConstraintSystem F) (values : ℕ) :
    RangeCheckLookupConfig × ConstraintSystem F :=
  let selAlloc := ConstraintSystem.complex_selector cs
  let tblAlloc := RangeTableConfig.configure selAlloc.2
  let cs3 := ConstraintSystem.lookup tblAlloc.2
    [(lookup_input selAlloc.1 values, tblAlloc.1.value)]
  (⟨values, selAlloc.1, tblAlloc.1⟩, cs3)

/-- `RangeCheckLookupConfig::assign_lookup`: enable the selector at offset 0,
then assign the value at offset 0, wrapping the cell in `RangeConstrained`;
errors from the collaborator operations are returned unchanged. -/
def RangeCheckLookupConfig.assign_lookup {F : Type}
    (_cfg : RangeCheckLookupConfig)
    (enableRes : Except Error Unit)
    (adviceRes : Except Error (AssignedCell F)) :
    Except Error (RangeConstrained F) :=
  match enableRes with
  | .error e => .error e
  | .ok _ => adviceRes.map RangeConstrained.mk

/-! ## Helper lemmas -/

/-- Evaluating the `range_check` fold multiplies the factors pointwise. -/
lemma eval_foldl_factors {F : Type} [Field F] (sel adv : ℕ → F) (v : Expression F) :
    ∀ (l : List ℕ) (e : Expression F),
    (l.foldl (fun expr i => Expression.Product expr
        (Expression.Sum (Expression.Constant ((i : ℕ) : F)) (Expression.Negated v))) e).eval sel adv
      = e.eval sel adv * (l.map (fun i => ((i : ℕ) : F) - v.eval sel adv)).prod
  | [], e => by simp [Expression.eval]
  | i :: l, e => by
      rw [List.foldl_cons, eval_foldl_factors sel adv v l]
      simp only [Expression.eval, List.map_cons, List.prod_cons, sub_eq_add_neg]
      ring

/-- The value of the `range_check` fold at a concrete advice value. -/
lemma range_check_body_eval {F : Type} [Field F] (range a : ℕ) (sel adv : ℕ → F) :
    (range_check_body range (Expression.Advice a) : Expression F).eval sel adv
      = adv a * ((List.range' 1 (range - 1)).map (fun i => ((i : ℕ) : F) - adv a)).prod := by
  rw [range_check_body, eval_foldl_factors]
  rfl

/-- The `range_check` fold vanishes exactly on the canonical range. -/
lemma range_check_body_eval_eq_zero_iff {F : Type} [Field F] (range a : ℕ)
    (h : 1 ≤ range) (sel adv : ℕ → F) :
    ((range_check_body range (Expression.Advice a) : Expression F).eval sel adv = 0
      ↔ ∃ i, i < range ∧ adv a = ((i : ℕ) : F)) := by
  rw [range_check_body_eval, mul_eq_zero, List.prod_eq_zero_iff]
  constructor
  · rintro (h0 | hmem)
    · exact ⟨0, by omega, by simpa using h0⟩
    · rcases List.mem_map.1 hmem with ⟨i, hi, hzero⟩
      rcases List.mem_range'_1.1 hi with ⟨h1, h2⟩
      exact ⟨i, by omega, (sub_eq_zero.1 hzero).symm⟩
  · rintro ⟨i, hi, hval⟩
    by_cases hO : i = 0
    · subst hO
      exact Or.inl (by simpa using hval)
    · refine Or.inr (List.mem_map.2 ⟨i, List.mem_range'_1.2 (by omega), ?_⟩)
      rw [hval, sub_self]

/-! ## Claims -/

/-- Claim C1: for every RANGE_SIZE ≥ 1, the fold expression built by
`RangeCheckCircuitConfig::configure` vanishes at a field element exactly
when that element is the canonical injection of some integer in
0..RANGE_SIZE-1; in particular for RANGE_SIZE = 1 the expression is just
the advice query `value`. -/
theorem C1_range_poly_zero_set {F : Type} [Field F] (RANGE_SIZE a : ℕ)
    (e : Expression F)
    (he : range_check RANGE_SIZE (Expression.Advice a) = some e)
    (sel adv : ℕ → F) :
    (e.eval sel adv = 0 ↔ ∃ i, i < RANGE_SIZE ∧ adv a = ((i : ℕ) : F)) ∧
    (RANGE_SIZE = 1 → e = Expression.Advice a) := by
  rw [range_check] at he
  by_cases h : RANGE_SIZE > 0
  · rw [if_pos h, Option.some_inj] at he
    subst he
    refine ⟨range_check_body_eval_eq_zero_iff RANGE_SIZE a h sel adv, ?_⟩
    intro h1
    subst h1
    rfl
  · rw [if_neg h] at he
    exact absurd he (by simp)

instance : Fact (Nat.Prime 5) := ⟨by norm_num⟩

instance : Fact (Nat.Prime 7) := ⟨by norm_num⟩

instance : Fact (Nat.Prime 11) := ⟨by norm_num⟩

/-- Concrete instance of C1 at RANGE_SIZE = 2 over ZMod 5, advice value 1. -/
theorem C1_range_poly_zero_set_witness :
    ((range_check_body 2 (Expression.Advice 0) : Expression (ZMod 5)).eval
        (fun _ => 0) (fun _ => 1) = 0
      ↔ ∃ i, i < 2 ∧ (1 : ZMod 5) = ((i : ℕ) : ZMod 5)) ∧
    (2 = 1 →
      (range_check_body 2 (Expression.Advice 0) : Expression (ZMod 5))
        = Expression.Advice 0) :=
  C1_range_poly_zero_set 2 0 _ (by decide) (fun _ => 0) (fun _ => 1)

/-- Claim C7: the polynomial gadget checks RANGE > 0 at configuration time:
for RANGE_SIZE = 0 the assertion inside the gate builder fires and
`configure` fails, while for every RANGE_SIZE ≥ 1 it succeeds. -/
theorem C7_configure_assertion {F : Type} [Field F]
    (cs : ConstraintSystem F) (value : ℕ) :
    (RangeCheckCircuitConfig.configure 0 cs value = none) ∧
    (∀ RANGE_SIZE : ℕ, 1 ≤ RANGE_SIZE →
      (RangeCheckCircuitConfig.configure RANGE_SIZE cs value).isSome = true) := by
  constructor
  · rfl
  · intro R hR
    rw [RangeCheckCircuitConfig.configure, range_check, if_pos (by omega)]
    rfl

/-- Concrete instance of C7 over ZMod 5 on the empty constraint system. -/
theorem C7_configure_assertion_witness :
    (RangeCheckCircuitConfig.configure 0 (ConstraintSystem.empty (ZMod 5)) 0 = none) ∧
    (RangeCheckCircuitConfig.configure 3 (ConstraintSystem.empty (ZMod 5)) 0).isSome = true :=
  ⟨(C7_configure_assertion (ConstraintSystem.empty (ZMod 5)) 0).1,
   (C7_configure_assertion (ConstraintSystem.empty (ZMod 5)) 0).2 3 (by decide)⟩

/-- The table values after `load` are the canonical injections of `0..RANGE-1`. -/
lemma tableValues_eq (F : Type) [Field F] (RANGE : ℕ) :
    tableValues F RANGE = (List.range RANGE).map (fun i => ((i : ℕ) : F)) := by
  simp [tableValues, tableAssignments, List.map_map]

/-- Evaluating the lookup input multiplies the selector and advice values. -/
lemma lookup_input_eval {F : Type} [Field F] (q a : ℕ) (sel adv : ℕ → F) :
    (lookup_input q a : Expression F).eval sel adv = sel q * adv a := rfl

/-- Claim C2: for both gadgets, every canonical value `v < RANGE` satisfies the
constraint at a selector-enabled row (the gate polynomial vanishes; the lookup
input `q·value` is a loaded table entry), while any field element outside the
canonical set makes the gate polynomial nonzero and matches no table row. -/
theorem C2_completeness_soundness {F : Type} [Field F] (RANGE : ℕ)
    (hR : 1 ≤ RANGE) :
    (∀ v : ℕ, v < RANGE →
      (range_check_body RANGE (Expression.Advice 0) : Expression F).eval
          (fun _ => 1) (fun _ => ((v : ℕ) : F)) = 0 ∧
      (lookup_input 0 0 : Expression F).eval (fun _ => 1) (fun _ => ((v : ℕ) : F))
          ∈ tableValues F RANGE) ∧
    (∀ x : F, (∀ i : ℕ, i < RANGE → x ≠ ((i : ℕ) : F)) →
      (range_check_body RANGE (Expression.Advice 0) : Expression F).eval
          (fun _ => 1) (fun _ => x) ≠ 0 ∧
      (lookup_input 0 0 : Expression F).eval (fun _ => 1) (fun _ => x)
          ∉ tableValues F RANGE) := by
  constructor
  · intro v hv
    constructor
    · exact (range_check_body_eval_eq_zero_iff RANGE 0 hR _ _).2 ⟨v, hv, rfl⟩
    · rw [lookup_input_eval, one_mul, tableValues_eq]
      exact List.mem_map.2 ⟨v, List.mem_range.2 hv, rfl⟩
  · intro x hx
    constructor
    · intro h0
      rcases (range_check_body_eval_eq_zero_iff RANGE 0 hR _ _).1 h0 with ⟨i, hi, hxi⟩
      exact hx i hi hxi
    · rw [lookup_input_eval, one_mul, tableValues_eq]
      intro hmem
      rcases List.mem_map.1 hmem with ⟨i, hi, hxi⟩
      exact hx i (List.mem_range.1 hi) hxi.symm

/-- Concrete instance of C2 over ZMod 11 with RANGE = 3: the in-range value 2
satisfies both gadgets, the out-of-range element 5 (the injection of
RANGE + 2) satisfies neither. -/
theorem C2_completeness_soundness_witness :
    ((range_check_body 3 (Expression.Advice 0) : Expression (ZMod 11)).eval
        (fun _ => 1) (fun _ => ((2 : ℕ) : ZMod 11)) = 0 ∧
      (lookup_input 0 0 : Expression (ZMod 11)).eval
        (fun _ => 1) (fun _ => ((2 : ℕ) : ZMod 11)) ∈ tableValues (ZMod 11) 3) ∧
    ((range_check_body 3 (Expression.Advice 0) : Expression (ZMod 11)).eval
        (fun _ => 1) (fun _ => (5 : ZMod 11)) ≠ 0 ∧
      (lookup_input 0 0 : Expression (ZMod 11)).eval
        (fun _ => 1) (fun _ => (5 : ZMod 11)) ∉ tableValues (ZMod 11) 3) :=
  ⟨(C2_completeness_soundness 3 (by decide)).1 2 (by decide),
   (C2_completeness_soundness 3 (by decide)).2 5 (by decide)⟩

/-- Claim C6: at any row where the selector evaluates to 0, the lookup input
`q·value` evaluates to 0 whatever the advice value is, and 0 is among the
loaded table values (for RANGE ≥ 1), so selector-inactive rows satisfy the
lookup relation. -/
theorem C6_inactive_rows_satisfied {F : Type} [Field F] (RANGE : ℕ)
    (hR : 1 ≤ RANGE) (q a : ℕ) (sel adv : ℕ → F) (hq : sel q = 0) :
    (lookup_input q a : Expression F).eval sel adv = 0 ∧
    (0 : F) ∈ tableValues F RANGE := by
  constructor
  · rw [lookup_input_eval, hq, zero_mul]
  · rw [tableValues_eq]
    exact List.mem_map.2 ⟨0, List.mem_range.2 (by omega), by simp⟩

/-- Concrete instance of C6 over ZMod 7 with RANGE = 2, advice value 5. -/
theorem C6_inactive_rows_satisfied_witness :
    (lookup_input 0 0 : Expression (ZMod 7)).eval (fun _ => 0) (fun _ => 5) = 0 ∧
    (0 : ZMod 7) ∈ tableValues (ZMod 7) 2 :=
  C6_inactive_rows_satisfied 2 (by decide) 0 0 (fun _ => 0) (fun _ => 5) rfl

/-- Claim C9: the lookup gadget never checks RANGE > 0: at RANGE = 0 its
`configure` still registers the lookup relation as usual, `load` returns Ok
having assigned zero table cells, and the resulting empty table makes every
selector-enabled lookup row unsatisfiable — in contrast to the polynomial
gadget, whose `range_check` asserts and fails at range 0. -/
theorem C9_lookup_no_range_guard {F : Type} [Field F]
    (cs : ConstraintSystem F) (values : ℕ) (tc : RangeTableConfig) :
    ((RangeCheckLookupConfig.configure 0 cs values).2.lookups
        = cs.lookups ++ [(lookup_input cs.selectors.length values, cs.tableColumns)]) ∧
    (RangeTableConfig.load tc 0 = Except.ok ([] : List (ℕ × ℕ × F))) ∧
    (∀ x : F, (lookup_input 0 0 : Expression F).eval (fun _ => 1) (fun _ => x)
        ∈ tableValues F 0 → False) ∧
    (∀ v : Expression F, range_check 0 v = none) := by
  refine ⟨rfl, rfl, ?_, fun v => rfl⟩
  intro x hx
  rw [tableValues_eq] at hx
  simp at hx

/-- Concrete instance of C9 over ZMod 7 on the empty constraint system. -/
theorem C9_lookup_no_range_guard_witness :
    ((RangeCheckLookupConfig.configure 0 (ConstraintSystem.empty (ZMod 7)) 0).2.lookups
        = (ConstraintSystem.empty (ZMod 7)).lookups
          ++ [(lookup_input (ConstraintSystem.empty (ZMod 7)).selectors.length 0,
               (ConstraintSystem.empty (ZMod 7)).tableColumns)]) ∧
    (RangeTableConfig.load (⟨0⟩ : RangeTableConfig) 0
        = Except.ok ([] : List (ℕ × ℕ × ZMod 7))) ∧
    ((lookup_input 0 0 : Expression (ZMod 7)).eval (fun _ => 1) (fun _ => (3 : ZMod 7))
        ∈ tableValues (ZMod 7) 0 → False) ∧
    (range_check 0 (Expression.Advice 0) = (none : Option (Expression (ZMod 7)))) :=
  ⟨(C9_lookup_no_range_guard (ConstraintSystem.empty (ZMod 7)) 0 ⟨0⟩).1,
   (C9_lookup_no_range_guard (ConstraintSystem.empty (ZMod 7)) 0 ⟨0⟩).2.1,
   fun h => (C9_lookup_no_range_guard (ConstraintSystem.empty (ZMod 7)) 0 ⟨0⟩).2.2.1 3 h,
   (C9_lookup_no_range_guard (ConstraintSystem.empty (ZMod 7)) 0 ⟨0⟩).2.2.2 (Expression.Advice 0)⟩

/-- Claim C4: after `RangeTableConfig::load` returns Ok, the table column
holds exactly RANGE assigned rows, the i-th assignment targeting the table
column at row i with the canonical injection of i, rows in order
(`0, 1, …, RANGE-1`: no duplicates, no gaps), and no other cells assigned. -/
theorem C4_table_load {F : Type} [Field F] (RANGE : ℕ) (tc : RangeTableConfig) :
    (RangeTableConfig.load tc RANGE
        = Except.ok (tableAssignments F RANGE tc.value)) ∧
    ((tableAssignments F RANGE tc.value).length = RANGE) ∧
    (∀ i (h : i < (tableAssignments F RANGE tc.value).length),
        (tableAssignments F RANGE tc.value).get ⟨i, h⟩
          = (tc.value, i, ((i : ℕ) : F))) ∧
    ((tableAssignments F RANGE tc.value).map (fun a => a.2.1) = List.range RANGE) ∧
    (((tableAssignments F RANGE tc.value).map (fun a => a.2.1)).Nodup) ∧
    (∀ a ∈ tableAssignments F RANGE tc.value, a.1 = tc.value ∧ a.2.1 < RANGE) := by
  refine ⟨rfl, by simp [tableAssignments], ?_, ?_, ?_, ?_⟩
  · intro i h
    simp [tableAssignments]
  · rw [tableAssignments, List.map_map]
    exact List.map_id'' (fun x => rfl) (List.range RANGE)
  · have h : List.map ((fun (a : ℕ × ℕ × F) => a.2.1) ∘ fun i => (tc.value, i, ((i : ℕ) : F)))
        (List.range RANGE) = List.range RANGE :=
      List.map_id'' (fun x => rfl) (List.range RANGE)
    rw [tableAssignments, List.map_map, h]
    exact List.nodup_range RANGE
  · intro a ha
    rcases List.mem_map.1 ha with ⟨i, hi, rfl⟩
    exact ⟨rfl, List.mem_range.1 hi⟩

/-- Concrete instance of C4 over ZMod 7 with RANGE = 3, table column 0. -/
theorem C4_table_load_witness :
    (RangeTableConfig.load (⟨0⟩ : RangeTableConfig) 3
        = Except.ok (tableAssignments (ZMod 7) 3 0)) ∧
    ((tableAssignments (ZMod 7) 3 0).length = 3) ∧
    ((tableAssignments (ZMod 7) 3 0).get ⟨2, by decide⟩ = (0, 2, ((2 : ℕ) : ZMod 7))) ∧
    ((tableAssignments (ZMod 7) 3 0).map (fun a => a.2.1) = List.range 3) ∧
    ((0, 1, ((1 : ℕ) : ZMod 7)).1 = 0 ∧ (0, 1, ((1 : ℕ) : ZMod 7)).2.1 < 3) :=
  ⟨(C4_table_load 3 ⟨0⟩).1, (C4_table_load 3 ⟨0⟩).2.1,
   (C4_table_load 3 ⟨0⟩).2.2.1 2 (by decide),
   (C4_table_load 3 ⟨0⟩).2.2.2.1,
   (C4_table_load 3 ⟨0⟩).2.2.2.2.2 (0, 1, ((1 : ℕ) : ZMod 7)) (by decide)⟩

/-- Claim C5: `RangeCheckLookupConfig::configure` registers exactly one lookup
relation, with input expression `q · value` (the allocated complex selector
times the advice query) paired with the freshly allocated table column, and
that input expression has degree exactly 2, independent of RANGE. -/
theorem C5_lookup_registration {F : Type} (RANGE : ℕ)
    (cs : ConstraintSystem F) (values : ℕ) :
    ((RangeCheckLookupConfig.configure RANGE cs values).2.lookups
        = cs.lookups ++ [(lookup_input cs.selectors.length values, cs.tableColumns)]) ∧
    ((RangeCheckLookupConfig.configure RANGE cs values).1.q_enable
        = cs.selectors.length) ∧
    ((RangeCheckLookupConfig.configure RANGE cs values).2.selectors
        = cs.selectors ++ [true]) ∧
    ((RangeCheckLookupConfig.configure RANGE cs values).1.table.value
        = cs.tableColumns) ∧
    (Expression.degree (lookup_input cs.selectors.length values : Expression F) = 2) :=
  ⟨rfl, rfl, rfl, rfl, rfl⟩

/-- Claim C10: configuration is deterministic — on identically-initialized
constraint systems with the same RANGE and the same advice column, the two
gadgets' `configure` functions return identical configs and register
identical gates, selectors, table columns and lookups. -/
theorem C10_configure_deterministic {F : Type} [Field F] (RANGE : ℕ)
    (csA csB : ConstraintSystem F) (vA vB : ℕ)
    (hcs : csA = csB) (hv : vA = vB) :
    (RangeCheckCircuitConfig.configure RANGE csA vA
        = RangeCheckCircuitConfig.configure RANGE csB vB) ∧
    (RangeCheckLookupConfig.configure RANGE csA vA
        = RangeCheckLookupConfig.configure RANGE csB vB) := by
  subst hcs
  subst hv
  exact ⟨rfl, rfl⟩

/-- Concrete instance of C10 over ZMod 5 at RANGE = 4 on empty systems. -/
theorem C10_configure_deterministic_witness :
    (RangeCheckCircuitConfig.configure 4 (ConstraintSystem.empty (ZMod 5)) 0
        = RangeCheckCircuitConfig.configure 4 (ConstraintSystem.empty (ZMod 5)) 0) ∧
    (RangeCheckLookupConfig.configure 4 (ConstraintSystem.empty (ZMod 5)) 0
        = RangeCheckLookupConfig.configure 4 (ConstraintSystem.empty (ZMod 5)) 0) :=
  C10_configure_deterministic 4 (ConstraintSystem.empty (ZMod 5))
    (ConstraintSystem.empty (ZMod 5)) 0 0 rfl rfl

/-- Claim C8: both `assign` entry points return Ok with the cell wrapped in
`RangeConstrained` when the selector-enable and advice-assignment operations
both succeed, and otherwise return the first underlying error unchanged; the
configuration value itself is never modified (both functions are pure in it). -/
theorem C8_assign_error_propagation {F : Type}
    (cfgP : RangeCheckCircuitConfig) (cfgL : RangeCheckLookupConfig)
    (enableRes : Except Error Unit) (adviceRes : Except Error (AssignedCell F)) :
    (∀ c : AssignedCell F, enableRes = Except.ok () → adviceRes = Except.ok c →
      RangeCheckCircuitConfig.assign cfgP enableRes adviceRes = Except.ok ⟨c⟩ ∧
      RangeCheckLookupConfig.assign_lookup cfgL enableRes adviceRes = Except.ok ⟨c⟩) ∧
    (∀ e : Error, enableRes = Except.error e →
      RangeCheckCircuitConfig.assign cfgP enableRes adviceRes = Except.error e ∧
      RangeCheckLookupConfig.assign_lookup cfgL enableRes adviceRes = Except.error e) ∧
    (∀ e : Error, enableRes = Except.ok () → adviceRes = Except.error e →
      RangeCheckCircuitConfig.assign cfgP enableRes adviceRes = Except.error e ∧
      RangeCheckLookupConfig.assign_lookup cfgL enableRes adviceRes = Except.error e) := by
  refine ⟨?_, ?_, ?_⟩
  · rintro c rfl rfl
    exact ⟨rfl, rfl⟩
  · rintro e rfl
    exact ⟨rfl, rfl⟩
  · rintro e rfl rfl
    exact ⟨rfl, rfl⟩

/-- Concrete instance of C8 over ZMod 7: the all-Ok case and an
enable-failure case. -/
theorem C8_assign_error_propagation_witness :
    (RangeCheckCircuitConfig.assign ⟨0, 0⟩ (Except.ok ())
        (Except.ok (⟨0, 0, (3 : ZMod 7)⟩ : AssignedCell (ZMod 7)))
        = Except.ok ⟨⟨0, 0, (3 : ZMod 7)⟩⟩ ∧
      RangeCheckLookupConfig.assign_lookup ⟨0, 0, ⟨0⟩⟩ (Except.ok ())
        (Except.ok (⟨0, 0, (3 : ZMod 7)⟩ : AssignedCell (ZMod 7)))
        = Except.ok ⟨⟨0, 0, (3 : ZMod 7)⟩⟩) ∧
    (RangeCheckCircuitConfig.assign ⟨0, 0⟩ (Except.error Error.Synthesis)
        (Except.ok (⟨0, 0, (3 : ZMod 7)⟩ : AssignedCell (ZMod 7)))
        = Except.error Error.Synthesis ∧
      RangeCheckLookupConfig.assign_lookup ⟨0, 0, ⟨0⟩⟩ (Except.error Error.Synthesis)
        (Except.ok (⟨0, 0, (3 : ZMod 7)⟩ : AssignedCell (ZMod 7)))
        = Except.error Error.Synthesis) :=
  ⟨(C8_assign_error_propagation ⟨0, 0⟩ ⟨0, 0, ⟨0⟩⟩ (Except.ok ())
      (Except.ok ⟨0, 0, (3 : ZMod 7)⟩)).1 ⟨0, 0, (3 : ZMod 7)⟩ rfl rfl,
   (C8_assign_error_propagation ⟨0, 0⟩ ⟨0, 0, ⟨0⟩⟩ (Except.error Error.Synthesis)
      (Except.ok ⟨0, 0, (3 : ZMod 7)⟩)).2.1 Error.Synthesis rfl⟩

/-- Reading the `range_check` fold as a polynomial in the value variable
turns it into the corresponding fold over polynomials. -/
lemma toPoly_foldl {F : Type} [Field F] (sel : ℕ → F) (a : ℕ) :
    ∀ (l : List ℕ) (e : Expression F),
    ((l.foldl (fun expr i => Expression.Product expr
        (Expression.Sum (Expression.Constant ((i : ℕ) : F))
          (Expression.Negated (Expression.Advice a)))) e).toPoly sel)
      = l.foldl (fun p i => p * (Polynomial.C ((i : ℕ) : F) - Polynomial.X)) (e.toPoly sel)
  | [], _ => rfl
  | i :: l, e => by
      rw [List.foldl_cons, toPoly_foldl sel a l, List.foldl_cons]
      congr 1

/-- Each multiplication by a linear factor raises the degree by one. -/
lemma natDegree_foldl_factors {F : Type} [Field F] :
    ∀ (l : List ℕ) (p : Polynomial F), p ≠ 0 →
    (l.foldl (fun q i => q * (Polynomial.C ((i : ℕ) : F) - Polynomial.X)) p).natDegree
      = p.natDegree + l.length
  | [], p, _ => by simp
  | i :: l, p, hp => by
      have heq : (Polynomial.C ((i : ℕ) : F) - Polynomial.X)
          = -(Polynomial.X - Polynomial.C ((i : ℕ) : F)) := by ring
      have hfac : (Polynomial.C ((i : ℕ) : F) - Polynomial.X) ≠ 0 := by
        rw [heq, neg_ne_zero]
        exact Polynomial.X_sub_C_ne_zero _
      have hdeg : (Polynomial.C ((i : ℕ) : F) - Polynomial.X).natDegree = 1 := by
        rw [heq, Polynomial.natDegree_neg, Polynomial.natDegree_X_sub_C]
      rw [List.foldl_cons,
        natDegree_foldl_factors l (p * (Polynomial.C ((i : ℕ) : F) - Polynomial.X))
          (mul_ne_zero hp hfac),
        Polynomial.natDegree_mul hp hfac, hdeg, List.length_cons]
      omega

/-- The degree in the value variable of the `range_check` fold is the full
RANGE: it is a product of RANGE linear factors (the initial `value` term
plus RANGE − 1 factors `(i − value)`). -/
lemma range_check_body_natDegree {F : Type} [Field F] (range a : ℕ)
    (h : 1 ≤ range) (sel : ℕ → F) :
    ((range_check_body range (Expression.Advice a) : Expression F).toPoly sel).natDegree
      = range := by
  rw [range_check_body, toPoly_foldl]
  have hadv : ((Expression.Advice a : Expression F).toPoly sel) = Polynomial.X := rfl
  have hX : ((Expression.Advice a : Expression F).toPoly sel) ≠ 0 := by
    rw [hadv]
    exact Polynomial.X_ne_zero
  rw [natDegree_foldl_factors _ _ hX, hadv, Polynomial.natDegree_X, List.length_range']
  omega

/-- Counterexample to claim C3 as stated: at RANGE = 2 over ZMod 5 the fold
expression has degree 2 in the value variable, not 2 − 1 = 1. -/
theorem C3_degree_counterexample :
    ¬ (((range_check_body 2 (Expression.Advice 0) : Expression (ZMod 5)).toPoly
        (fun _ => 1)).natDegree = 2 - 1) := by
  rw [range_check_body_natDegree 2 0 (by norm_num) (fun _ => (1 : ZMod 5))]
  decide

/-- Claim C3 (amended): for every RANGE ≥ 1, the polynomial gadget's gate
expression has degree exactly RANGE (not RANGE − 1) in the value variable:
the fold starts from the degree-1 term `value` and multiplies in RANGE − 1
further linear factors. -/
theorem C3_degree_amended {F : Type} [Field F] (RANGE a : ℕ)
    (h : 1 ≤ RANGE) (sel : ℕ → F) :
    ((range_check_body RANGE (Expression.Advice a) : Expression F).toPoly sel).natDegree
      = RANGE :=
  range_check_body_natDegree RANGE a h sel

/-- Concrete instance of the amended C3 at RANGE = 3 over ZMod 5. -/
theorem C3_degree_amended_witness :
    ((range_check_body 3 (Expression.Advice 0) : Expression (ZMod 5)).toPoly
        (fun _ => 1)).natDegree = 3 :=
  C3_degree_amended 3 0 (by norm_num) (fun _ => (1 : ZMod 5))
